import Mathlib

/-!
Shallow embedding of `src/collector.py`: a proxy-subscription collector that
fetches clash configuration documents, merges their `proxies` lists into a
shared accumulator, probes TCP reachability and latency of each node, keeps
the nodes inside a latency window and persists the result as YAML.

Effects are made explicit: the network is an oracle giving each connect
attempt's outcome, and the completion orders of the two thread pools
(`as_completed` on the fetch futures and on the probe futures) are passed as
index lists.  Latencies are rationals (exact stand-in for Python floats on
the values used here); an uncaught Python exception is `Except.error`.
-/

namespace Collector

/-- A scalar YAML value stored in a proxy mapping. -/
inductive PValue where
  | vstr : String → PValue
  | vint : Int → PValue
  | vbool : Bool → PValue
  | vnull : PValue
deriving DecidableEq

/-- A proxy node: an ordered mapping from field names to values
(a `dict` in the source). -/
abbrev ProxyNode := List (String × PValue)

/-- `d.get(k)`: the binding of `k`, `None`-as-`Option.none` when absent. -/
def pyGet (p : ProxyNode) (k : String) : Option PValue :=
  (p.find? (fun kv => kv.1 == k)).map (fun kv => kv.2)

/-- Python truthiness of a scalar value. -/
def pyTruthy : PValue → Bool
  | .vstr s => s != ""
  | .vint n => n != 0
  | .vbool b => b
  | .vnull => false

/-- Truthiness of a `d.get(k)` result (`None` when the key is absent). -/
def pyTruthyOpt : Option PValue → Bool
  | some v => pyTruthy v
  | none => false

/-- ASCII lowering of one character, as `str.lower` acts on the ASCII range
(every protocol tag in play is ASCII). -/
def pyLowerChar (c : Char) : Char :=
  if 'A' ≤ c ∧ c ≤ 'Z' then Char.ofNat (c.toNat + 32) else c

/-- `s.lower()` restricted to ASCII input. -/
def pyLower (s : String) : String :=
  ⟨s.data.map pyLowerChar⟩

/-- `s.strip()`: surrounding whitespace removed (ASCII whitespace suffices
for the inputs in play). -/
def pyStrip (s : String) : String :=
  ⟨((s.data.dropWhile Char.isWhitespace).reverse.dropWhile Char.isWhitespace).reverse⟩

/-- `s.startswith(pre)`. -/
def pyStartsWith (s pre : String) : Bool :=
  pre.data.isPrefixOf s.data

/-- `int(s)` on a string: optional surrounding whitespace, an optional sign,
then decimal digits; anything else raises `ValueError`. -/
def parsePyIntStr (s : String) : Except String Int :=
  let sd : Int × List Char :=
    match (pyStrip s).data with
    | '-' :: rest => (-1, rest)
    | '+' :: rest => (1, rest)
    | cs => (1, cs)
  if sd.2 ≠ [] ∧ sd.2.all Char.isDigit then
    Except.ok (sd.1 * Int.ofNat (sd.2.foldl (fun a c => a * 10 + (c.toNat - 48)) 0))
  else Except.error "ValueError"

/-- `int(v)` on a YAML scalar. -/
def pyInt : PValue → Except String Int
  | .vint n => Except.ok n
  | .vbool b => Except.ok (if b then 1 else 0)
  | .vstr s => parsePyIntStr s
  | .vnull => Except.error "TypeError"

/-- The protocols the prober skips because they have no plain TCP handshake
(source line 81). -/
def skip_protocols : List String :=
  ["hysteria", "hysteria2", "hy2", "tuic", "wireguard", "juicity"]

/-- Outcome of one call to `tcp_connection_test`: the returned pair plus the
number of TCP connect attempts actually made (the probe's observable
side effect on the network). -/
structure ProbeOutcome where
  reachable : Bool
  latencyMs : Option ℚ
  attempts : Nat
deriving DecidableEq

/-- `tcp_connection_test` (source lines 72-111).  `net t k` is the outcome of
connect attempt `k` issued with socket timeout `t`: the measured duration in
milliseconds when the connect succeeded (`connect_ex` returned 0), `none`
when it failed or raised (failures are caught and contribute no sample). -/
def tcp_connection_test (server : PValue) (port : Int) (proto : String)
    (timeout : ℚ) (net : ℚ → Nat → Option ℚ) : ProbeOutcome :=
  if pyLower proto ∈ skip_protocols then
    { reachable := false, latencyMs := none, attempts := 0 }
  else
    let latencies := (List.range 3).filterMap (net timeout)
    if latencies = [] then
      { reachable := false, latencyMs := none, attempts := 3 }
    else
      { reachable := true
        latencyMs := some (latencies.sum / (latencies.length : ℚ))
        attempts := 3 }

/-- Source line 12 (milliseconds). -/
def LATENCY_THRESHOLD : ℚ := 30

/-- Source line 13 (milliseconds). -/
def MIN_LATENCY_THRESHOLD : ℚ := 1

/-- The latency half of the keep condition on source line 136
(`LATENCY_THRESHOLD >= latency >= MIN_LATENCY_THRESHOLD`); `none` never
reaches the chained comparison because `is_available` is false then. -/
def keepLatency : Option ℚ → Bool
  | some l => decide (MIN_LATENCY_THRESHOLD ≤ l ∧ l ≤ LATENCY_THRESHOLD)
  | none => false

/-- The keep condition of source line 136:
`is_available and LATENCY_THRESHOLD >= latency >= MIN_LATENCY_THRESHOLD`. -/
def keepDecision (r : ProbeOutcome) : Bool :=
  r.reachable && keepLatency r.latencyMs

/-- `proxy.get("type", "tcp")` (source line 122); YAML type tags are strings,
so only string values are modelled (the default also covers the absent key). -/
def protoOf (p : ProxyNode) : String :=
  match pyGet p "type" with
  | some (.vstr s) => s
  | some _ => "tcp"
  | none => "tcp"

/-- `proxy.get("server")` as the value handed to the probe (source line 120). -/
def serverOf (p : ProxyNode) : PValue :=
  (pyGet p "server").getD .vnull

/-- The submission guard of source line 126:
`if proxy.get("server") and proxy.get("port")`. -/
def guardNode (p : ProxyNode) : Bool :=
  pyTruthyOpt (pyGet p "server") && pyTruthyOpt (pyGet p "port")

/-- The nodes that pass the guard, in input order. -/
def submittedNodes (proxies : List ProxyNode) : List ProxyNode :=
  proxies.filter guardNode

/-- `int(proxy.get("port"))` (source line 121). -/
def parse_port (p : ProxyNode) : Except String Int :=
  match pyGet p "port" with
  | some v => pyInt v
  | none => Except.error "TypeError"

/-- Task submission (source lines 117-127): each guard-passing node is paired
with its parsed port, in input order; the first failing `int(...)` raises out
of the dict comprehension and aborts the whole submission. -/
def buildFuturesAux : List ProxyNode → Except String (List (ProxyNode × Int))
  | [] => Except.ok []
  | p :: rest =>
    match parse_port p with
    | .error e => Except.error e
    | .ok n =>
      match buildFuturesAux rest with
      | .error e => Except.error e
      | .ok fs => Except.ok ((p, n) :: fs)

def buildFutures (proxies : List ProxyNode) : Except String (List (ProxyNode × Int)) :=
  buildFuturesAux (submittedNodes proxies)

/-- One submitted task's probe (source lines 118-123): the per-node network
oracle `net` is keyed by the node itself. -/
def probeNode (net : ProxyNode → ℚ → Nat → Option ℚ) (timeout : ℚ)
    (f : ProxyNode × Int) : ProbeOutcome :=
  tcp_connection_test (serverOf f.1) f.2 (protoOf f.1) timeout (net f.1)

/-- `check_proxies_availability` (source lines 113-144).  `order` is the
completion order of `as_completed`: the submitted-task indices in the order
the futures finish; each finished future's node is appended to
`available_proxies` when its result passes the keep condition. -/
def check_proxies_availability (proxies : List ProxyNode)
    (net : ProxyNode → ℚ → Nat → Option ℚ) (order : List Nat) (timeout : ℚ) :
    Except String (List ProxyNode) :=
  match buildFutures proxies with
  | .error e => Except.error e
  | .ok fut =>
    Except.ok ((order.filterMap (fun i => fut.get? i)).filterMap (fun f =>
      if keepDecision (probeNode net timeout f) then some f.1 else none))

/-- The spec's stable filter (section 4.4): the survivors among the submitted
tasks in submission order, which is input order. -/
def stable_filter (net : ProxyNode → ℚ → Nat → Option ℚ) (timeout : ℚ)
    (fut : List (ProxyNode × Int)) : List ProxyNode :=
  fut.filterMap (fun f =>
    if keepDecision (probeNode net timeout f) then some f.1 else none)

/-- Source line 33 acting on one line: a kept line is passed stripped, a line
that is blank after stripping or starts with `#` yields nothing. -/
def lineToUrl (url : String) : Option String :=
  if pyStrip url != "" && !(pyStartsWith url "#") then some (pyStrip url)
  else none

/-- Source line 33:
`[url.strip() for url in urls if url.strip() and not url.startswith('#')]`. -/
def process_url_lines (urls : List String) : List String :=
  (urls.filter (fun url => pyStrip url != "" && !(pyStartsWith url "#"))).map
    (fun url => pyStrip url)

/-- `process_clash` merging (source lines 59-70) over a whole `process_urls`
run: `sources.get? i = some (some l)` means source `i` fetched and decoded to
node list `l`; `some none` means its fetch or decode failed, or it had no
`proxies` entry, so it contributes nothing.  `order` is the completion order
of the fetch tasks; each completing task extends the shared `merged_proxies`
accumulator with its whole node list at once. -/
def aggregate (sources : List (Option (List ProxyNode))) (order : List Nat) :
    List ProxyNode :=
  (order.filterMap (fun i => (sources.get? i).bind id)).flatten

/-- A log event emitted during a run. -/
inductive Ev where
  | info : String → Ev
  | warn : String → Ev
  | error : String → Ev
deriving DecidableEq

/-- `save_yaml` (source lines 155-161): on success the output file holds the
data under the `proxies` key; on failure the exception is caught, an error is
logged and the file keeps its previous contents. -/
def save_yaml (writeOk : Bool) (data : List ProxyNode)
    (fs : Option (List ProxyNode)) : Option (List ProxyNode) × List Ev :=
  if writeOk then (some data, [])
  else (fs, [Ev.error "Error saving YAML file"])

/-- `load_yaml(...).get("proxies", [])` (source lines 146-153 and 175): a
missing or unreadable file is caught and yields `{}`, hence no proxies. -/
def load_yaml (fs : Option (List ProxyNode)) : List ProxyNode :=
  fs.getD []

/-- `main` (source lines 163-181).  `fs0` is the initial contents of the
output file (`none` when it is absent or unreadable), `writeOk1`/`writeOk2`
tell whether each of the two writes can succeed.  The result is the log trace
together with the final file contents; `Except.error` means an exception
escaped `main` (abnormal process exit), `Except.ok` a normal exit. -/
def runMain (sources : List (Option (List ProxyNode))) (fetchOrder : List Nat)
    (writeOk1 : Bool) (net : ProxyNode → ℚ → Nat → Option ℚ)
    (probeOrder : List Nat) (writeOk2 : Bool)
    (fs0 : Option (List ProxyNode)) :
    Except String (List Ev × Option (List ProxyNode)) :=
  let merged_proxies := aggregate sources fetchOrder
  let s1 := save_yaml writeOk1 merged_proxies fs0
  let evA := s1.2 ++ [Ev.info "Aggregation completed"]
  let proxies := load_yaml s1.1
  if proxies = [] then
    Except.ok (evA ++ [Ev.warn "No proxies found to check"], s1.1)
  else
    match check_proxies_availability proxies net probeOrder 5 with
    | .error e => Except.error e
    | .ok available_proxies =>
      let s2 := save_yaml writeOk2 available_proxies s1.1
      Except.ok (evA ++ s2.2 ++
        [Ev.info "Available proxies updated and saved"], s2.1)

/-- Concrete fixture: a plain TCP-probable node. -/
def nodeA : ProxyNode :=
  [("name", .vstr "A"), ("server", .vstr "1.1.1.1"), ("port", .vint 80)]

/-- Concrete fixture: a second, distinct TCP-probable node. -/
def nodeB : ProxyNode :=
  [("name", .vstr "B"), ("server", .vstr "2.2.2.2"), ("port", .vint 443)]

/-- Concrete fixture: a node with no `server` field. -/
def nodeNoServer : ProxyNode :=
  [("name", .vstr "C"), ("port", .vint 80)]

/-- Concrete fixture: a node whose `port` is truthy but not parseable. -/
def nodeBadPort : ProxyNode :=
  [("name", .vstr "D"), ("server", .vstr "3.3.3.3"), ("port", .vstr "abc")]

/-- A network where every connect attempt succeeds in `l` milliseconds. -/
def netConst (l : ℚ) : ProxyNode → ℚ → Nat → Option ℚ := fun _ _ _ => some l

/-- A network where every connect attempt succeeds in 5 milliseconds. -/
def wNet5 : ProxyNode → ℚ → Nat → Option ℚ := netConst 5

/-- A network where every connect attempt fails. -/
def netDown : ProxyNode → ℚ → Nat → Option ℚ := fun _ _ _ => none



theorem tcp_const_eval (server : PValue) (port : Int) (proto : String) (timeout : ℚ)
    (l : ℚ) (h : pyLower proto ∉ skip_protocols) :
    tcp_connection_test server port proto timeout (fun _ _ => some l) =
      ⟨true, some l, 3⟩ := by
  unfold tcp_connection_test
  rw [if_neg h]
  have hl : (List.range 3).filterMap ((fun (_ : ℚ) (_ : Nat) => some l) timeout) = [l, l, l] := rfl
  simp only [hl]
  have hne : ([l, l, l] : List ℚ) ≠ [] := by simp
  rw [if_neg hne]
  simp only [ProbeOutcome.mk.injEq, List.sum_cons, List.sum_nil, List.length_cons,
    List.length_nil, Option.some.injEq]
  refine ⟨trivial, ?_, trivial⟩
  push_cast
  ring

theorem tcp_none_eval (server : PValue) (port : Int) (proto : String) (timeout : ℚ)
    (h : pyLower proto ∉ skip_protocols) :
    tcp_connection_test server port proto timeout (fun _ _ => none) =
      ⟨false, none, 3⟩ := by
  unfold tcp_connection_test
  rw [if_neg h]
  rfl

theorem check_eq_stable (proxies : List ProxyNode) (net : ProxyNode → ℚ → Nat → Option ℚ)
    (order : List Nat) (timeout : ℚ) (fut : List (ProxyNode × Int))
    (h : buildFutures proxies = .ok fut) :
    check_proxies_availability proxies net order timeout =
      .ok (stable_filter net timeout (order.filterMap (fun i => fut.get? i))) := by
  simp only [check_proxies_availability, h]
  rfl

theorem stable_filter_nil (net : ProxyNode → ℚ → Nat → Option ℚ) (timeout : ℚ) :
    stable_filter net timeout [] = [] := rfl

theorem stable_filter_cons (net : ProxyNode → ℚ → Nat → Option ℚ) (timeout : ℚ)
    (f : ProxyNode × Int) (fs : List (ProxyNode × Int)) :
    stable_filter net timeout (f :: fs) =
      if keepDecision (probeNode net timeout f) then
        f.1 :: stable_filter net timeout fs
      else stable_filter net timeout fs := by
  unfold stable_filter
  rw [List.filterMap_cons]
  by_cases hk : keepDecision (probeNode net timeout f) <;> simp [hk]

theorem keep_mk (b : Bool) (q : ℚ) (a : Nat) :
    keepDecision ⟨b, some q, a⟩ =
      (b && decide (MIN_LATENCY_THRESHOLD ≤ q ∧ q ≤ LATENCY_THRESHOLD)) := by
  simp [keepDecision, keepLatency]

theorem check_nodeA_const (q : ℚ) :
    check_proxies_availability [nodeA] (netConst q) [0] 5 =
      .ok (if MIN_LATENCY_THRESHOLD ≤ q ∧ q ≤ LATENCY_THRESHOLD then [nodeA] else []) := by
  rw [check_eq_stable [nodeA] (netConst q) [0] 5 [(nodeA, 80)] rfl]
  have hcomp : (([0] : List Nat).filterMap
      (fun i => (([(nodeA, 80)] : List (ProxyNode × Int)).get? i))) =
      ([(nodeA, 80)] : List (ProxyNode × Int)) := rfl
  rw [hcomp, stable_filter_cons, stable_filter_nil]
  have h2 : probeNode (netConst q) 5 (nodeA, 80) = ⟨true, some q, 3⟩ :=
    tcp_const_eval _ _ _ _ q (by decide)
  rw [h2, keep_mk]
  by_cases hc : MIN_LATENCY_THRESHOLD ≤ q ∧ q ≤ LATENCY_THRESHOLD <;> simp [hc]

theorem check_two_swapped :
    check_proxies_availability [nodeA, nodeB] wNet5 [1, 0] 5 = .ok [nodeB, nodeA] := by
  rw [check_eq_stable [nodeA, nodeB] wNet5 [1, 0] 5 [(nodeA, 80), (nodeB, 443)] rfl]
  have hcomp : (([1, 0] : List Nat).filterMap
      (fun i => (([(nodeA, 80), (nodeB, 443)] : List (ProxyNode × Int)).get? i))) =
      ([(nodeB, 443), (nodeA, 80)] : List (ProxyNode × Int)) := rfl
  rw [hcomp, stable_filter_cons, stable_filter_cons, stable_filter_nil]
  have hA : probeNode wNet5 5 (nodeA, 80) = ⟨true, some 5, 3⟩ := tcp_const_eval _ _ _ _ 5 (by decide)
  have hB : probeNode wNet5 5 (nodeB, 443) = ⟨true, some 5, 3⟩ := tcp_const_eval _ _ _ _ 5 (by decide)
  rw [hA, hB, keep_mk]
  norm_num [MIN_LATENCY_THRESHOLD, LATENCY_THRESHOLD]

theorem check_badport :
    check_proxies_availability [nodeBadPort] wNet5 [0] 5 = .error "ValueError" := rfl

theorem lineToUrl_tests : lineToUrl "# x" = none ∧ lineToUrl "  " = none ∧
    lineToUrl " http://a " = some "http://a" ∧ lineToUrl "  # y" = some "# y" := by decide

theorem range_filterMap_get {α β : Type} (l : List α) (f : α → Option β) :
    (List.range l.length).filterMap (fun i => (l.get? i).bind f) = l.filterMap f := by
  induction l with
  | nil => rfl
  | cons a tl ih =>
    rw [List.length_cons, List.range_succ_eq_map, List.filterMap_cons, List.filterMap_map]
    have hc : ((fun i => ((a :: tl).get? i).bind f) ∘ Nat.succ) = fun i => (tl.get? i).bind f := rfl
    rw [hc, ih]
    cases hf : f a <;> simp [hf, List.filterMap_cons]

theorem range_filterMap_get_eq {α : Type} (l : List α) :
    (List.range l.length).filterMap (fun i => l.get? i) = l := by
  induction l with
  | nil => rfl
  | cons a tl ih =>
    rw [List.length_cons, List.range_succ_eq_map, List.filterMap_cons, List.filterMap_map]
    have hc : ((fun i => (a :: tl).get? i) ∘ Nat.succ) = fun i => tl.get? i := rfl
    rw [hc, ih]
    rfl

theorem perm_completed {α : Type} (l : List α) (order : List Nat)
    (h : order.Perm (List.range l.length)) :
    (order.filterMap (fun i => l.get? i)).Perm l :=
  (h.filterMap _).trans (List.Perm.of_eq (range_filterMap_get_eq l))

theorem filter_map_eq_filterMap {α β : Type} (p : α → Bool) (f : α → β) (l : List α) :
    (l.filter p).map f = l.filterMap (fun a => if p a then some (f a) else none) := by
  induction l with
  | nil => rfl
  | cons a tl ih =>
    by_cases h : p a <;> simp [List.filter_cons, List.filterMap_cons, h, ih]

theorem buildFuturesAux_fst (l : List ProxyNode) (fut : List (ProxyNode × Int))
    (h : buildFuturesAux l = .ok fut) : fut.map Prod.fst = l := by
  induction l generalizing fut with
  | nil =>
    injection h with h
    rw [← h]
    rfl
  | cons p tl ih =>
    unfold buildFuturesAux at h
    cases hp : parse_port p with
    | error e => rw [hp] at h; simp at h
    | ok n =>
      rw [hp] at h
      cases ht : buildFuturesAux tl with
      | error e => rw [ht] at h; simp at h
      | ok fs =>
        rw [ht] at h
        injection h with h
        rw [← h, List.map_cons, ih fs ht]

theorem buildFuturesAux_ok_of (l : List ProxyNode)
    (h : ∀ p ∈ l, ∃ n, parse_port p = .ok n) :
    ∃ fut, buildFuturesAux l = .ok fut := by
  induction l with
  | nil => exact ⟨[], rfl⟩
  | cons p tl ih =>
    obtain ⟨n, hn⟩ := h p (List.mem_cons_self p tl)
    obtain ⟨fs, hfs⟩ := ih (fun q hq => h q (List.mem_cons_of_mem p hq))
    refine ⟨(p, n) :: fs, ?_⟩
    unfold buildFuturesAux
    rw [hn, hfs]

theorem check_ok_mem (proxies : List ProxyNode) (net : ProxyNode → ℚ → Nat → Option ℚ)
    (order : List Nat) (timeout : ℚ) (out : List ProxyNode)
    (h : check_proxies_availability proxies net order timeout = .ok out) :
    ∀ p ∈ out, p ∈ submittedNodes proxies := by
  intro p hp
  unfold check_proxies_availability at h
  cases hb : buildFutures proxies with
  | error e => rw [hb] at h; simp at h
  | ok fut =>
    rw [hb] at h
    injection h with h
    rw [← h] at hp
    rw [List.mem_filterMap] at hp
    obtain ⟨f, hf, hg⟩ := hp
    have hpf : f.1 = p := by
      by_cases hk : keepDecision (probeNode net timeout f) <;> simp [hk] at hg
      exact hg
    rw [List.mem_filterMap] at hf
    obtain ⟨i, _, hgi⟩ := hf
    have hf2 : f ∈ fut := List.get?_mem hgi
    have hfst := buildFuturesAux_fst (submittedNodes proxies) fut hb
    rw [← hpf, ← hfst]
    exact List.mem_map_of_mem Prod.fst hf2

/-- Whether an `Except` result is a normal return. -/
def exceptOk {α : Type} : Except String α → Bool
  | .ok _ => true
  | .error _ => false

/-- C1: for every node whose (lowercased) protocol tag is not in the
skip-set, the prober makes exactly 3 independent TCP connect attempts, each
issued with the given timeout; if at least one attempt succeeds it returns
reachable with latency the arithmetic mean of the successful attempts'
durations, otherwise unreachable with no latency. -/
theorem C1_three_attempts_mean (server : PValue) (port : Int) (proto : String)
    (timeout : ℚ) (net : ℚ → Nat → Option ℚ)
    (h : pyLower proto ∉ skip_protocols) :
    (tcp_connection_test server port proto timeout net).attempts = 3 ∧
    ((List.range 3).filterMap (net timeout) = [] →
      tcp_connection_test server port proto timeout net =
        { reachable := false, latencyMs := none, attempts := 3 }) ∧
    ((List.range 3).filterMap (net timeout) ≠ [] →
      tcp_connection_test server port proto timeout net =
        { reachable := true
          latencyMs := some (((List.range 3).filterMap (net timeout)).sum /
            ((((List.range 3).filterMap (net timeout)).length : ℚ)))
          attempts := 3 }) := by
  unfold tcp_connection_test
  rw [if_neg h]
  by_cases he : (List.range 3).filterMap (net timeout) = [] <;> simp [he]

/-- Network fixture for the C1 witness: attempts 0 and 2 connect in 10 ms and
20 ms, attempt 1 fails. -/
def wNetC1 : ℚ → Nat → Option ℚ := fun _ k =>
  if k == 0 then some 10 else if k == 1 then none else some 20

/-- Witness for C1 at a concrete input: type "ss", two of the three attempts
succeed in 10 ms and 20 ms, so the node is reachable with mean 15 ms. -/
theorem C1_witness :
    tcp_connection_test (.vstr "1.2.3.4") 443 "ss" 5 wNetC1 =
      { reachable := true, latencyMs := some 15, attempts := 3 } := by
  have h2 : (List.range 3).filterMap (wNetC1 5) = [10, 20] := rfl
  have h := (C1_three_attempts_mean (.vstr "1.2.3.4") 443 "ss" 5 wNetC1 (by decide)).2.2
    (by rw [h2]; simp)
  rw [h, h2]
  norm_num [List.sum_cons]

/-- C2: the filter keeps a probed node iff it is reachable and its measured
latency lies in the inclusive window
[MIN_LATENCY_THRESHOLD, LATENCY_THRESHOLD] = [1, 30]; through the full
checking pipeline a node measured at exactly 1 ms or exactly 30 ms is kept,
one at 0.9 ms or 30.1 ms is dropped, and an unreachable node is dropped. -/
theorem C2_latency_window :
    (∀ r : ProbeOutcome, keepDecision r = true ↔
      (r.reachable = true ∧ ∃ l, r.latencyMs = some l ∧
        MIN_LATENCY_THRESHOLD ≤ l ∧ l ≤ LATENCY_THRESHOLD)) ∧
    check_proxies_availability [nodeA] (netConst 1) [0] 5 = .ok [nodeA] ∧
    check_proxies_availability [nodeA] (netConst 30) [0] 5 = .ok [nodeA] ∧
    check_proxies_availability [nodeA] (netConst (9/10)) [0] 5 = .ok [] ∧
    check_proxies_availability [nodeA] (netConst (301/10)) [0] 5 = .ok [] ∧
    check_proxies_availability [nodeA] netDown [0] 5 = .ok [] := by
  refine ⟨?_, ?_, ?_, ?_, ?_, ?_⟩
  · intro r
    cases r with
    | mk b lat a => cases lat <;> simp [keepDecision, keepLatency]
  · rw [check_nodeA_const 1]
    norm_num [MIN_LATENCY_THRESHOLD, LATENCY_THRESHOLD]
  · rw [check_nodeA_const 30]
    norm_num [MIN_LATENCY_THRESHOLD, LATENCY_THRESHOLD]
  · rw [check_nodeA_const (9/10)]
    norm_num [MIN_LATENCY_THRESHOLD, LATENCY_THRESHOLD]
  · rw [check_nodeA_const (301/10)]
    norm_num [MIN_LATENCY_THRESHOLD, LATENCY_THRESHOLD]
  · rw [check_eq_stable [nodeA] netDown [0] 5 [(nodeA, 80)] rfl]
    have hcomp : (([0] : List Nat).filterMap
        (fun i => (([(nodeA, 80)] : List (ProxyNode × Int)).get? i))) =
        ([(nodeA, 80)] : List (ProxyNode × Int)) := rfl
    rw [hcomp, stable_filter_cons, stable_filter_nil]
    have hdown : probeNode netDown 5 (nodeA, 80) =
        { reachable := false, latencyMs := none, attempts := 3 } :=
      tcp_none_eval _ _ _ _ (by decide)
    rw [hdown]
    rfl

/-- C3: a node whose protocol tag is in the fixed skip-set is never probed:
no TCP connect attempt is made and the result is always unreachable with no
latency. -/
theorem C3_skip_set_never_probed (server : PValue) (port : Int) (timeout : ℚ)
    (net : ℚ → Nat → Option ℚ) (proto : String) (h : proto ∈ skip_protocols) :
    tcp_connection_test server port proto timeout net =
      { reachable := false, latencyMs := none, attempts := 0 } := by
  have hl : pyLower proto ∈ skip_protocols := by
    simp only [skip_protocols, List.mem_cons, List.not_mem_nil, or_false] at h
    rcases h with rfl | rfl | rfl | rfl | rfl | rfl <;> decide
  unfold tcp_connection_test
  rw [if_pos hl]

/-- Witness for C3: a "wireguard" node whose server would answer every TCP
connect in 2 ms is still reported unreachable, with zero connect attempts. -/
theorem C3_witness :
    tcp_connection_test (.vstr "10.0.0.1") 51820 "wireguard" 5 (fun _ _ => some 2) =
      { reachable := false, latencyMs := none, attempts := 0 } :=
  C3_skip_set_never_probed _ _ _ _ "wireguard" (by decide)

/-- C10: skip-set matching is case-insensitive: a node whose lowercased
protocol tag is in the skip-set is never probed and yields unreachable with
no latency, exactly as the lowercase tag itself does. -/
theorem C10_case_insensitive_skip (server : PValue) (port : Int) (timeout : ℚ)
    (net : ℚ → Nat → Option ℚ) (proto : String)
    (h : pyLower proto ∈ skip_protocols) :
    tcp_connection_test server port proto timeout net =
      { reachable := false, latencyMs := none, attempts := 0 } ∧
    tcp_connection_test server port (pyLower proto) timeout net =
      { reachable := false, latencyMs := none, attempts := 0 } := by
  constructor
  · unfold tcp_connection_test
    rw [if_pos h]
  · have hll : pyLower (pyLower proto) ∈ skip_protocols := by
      simp only [skip_protocols, List.mem_cons, List.not_mem_nil, or_false] at h
      rcases h with h | h | h | h | h | h <;> rw [h] <;> decide
    unfold tcp_connection_test
    rw [if_pos hll]

/-- Witness for C10: "WireGuard" and "HYSTERIA2" are skipped exactly like
their lowercase tags, with zero connect attempts. -/
theorem C10_witness :
    tcp_connection_test (.vstr "h") 443 "WireGuard" 5 (fun _ _ => some 2) =
      { reachable := false, latencyMs := none, attempts := 0 } ∧
    tcp_connection_test (.vstr "h") 443 "HYSTERIA2" 5 (fun _ _ => some 2) =
      { reachable := false, latencyMs := none, attempts := 0 } :=
  ⟨(C10_case_insensitive_skip _ _ _ _ "WireGuard" (by decide)).1,
   (C10_case_insensitive_skip _ _ _ _ "HYSTERIA2" (by decide)).1⟩

/-- C7: every line that is blank or begins with `#` contributes nothing to
the URL list (it is never passed to the fetcher); every other line is passed,
stripped, as exactly one source URL; the produced URL list is exactly the
per-line image of the input lines. -/
theorem C7_blank_comment_lines_ignored (urls : List String) :
    process_url_lines urls = urls.filterMap lineToUrl ∧
    (∀ url, pyStrip url = "" ∨ pyStartsWith url "#" = true → lineToUrl url = none) ∧
    (∀ url, pyStrip url ≠ "" → pyStartsWith url "#" = false →
      lineToUrl url = some (pyStrip url)) := by
  refine ⟨?_, ?_, ?_⟩
  · unfold process_url_lines
    rw [filter_map_eq_filterMap]
    rfl
  · intro url hurl
    unfold lineToUrl
    rcases hurl with hb | hh
    · simp [hb]
    · simp [hh]
  · intro url h1 h2
    unfold lineToUrl
    simp [h1, h2]

/-- Witness for C7: a comment line and a blank line are dropped, a payload
line with surrounding whitespace is passed stripped. -/
theorem C7_witness :
    lineToUrl "# comment" = none ∧ lineToUrl "   " = none ∧
    lineToUrl " http://example.com/sub.yaml " = some "http://example.com/sub.yaml" := by
  have h := C7_blank_comment_lines_ignored ["# comment", "   ", " http://example.com/sub.yaml "]
  exact ⟨h.2.1 "# comment" (Or.inr (by decide)),
    h.2.1 "   " (Or.inl (by decide)),
    h.2.2 " http://example.com/sub.yaml " (by decide) (by decide)⟩

/-- C4 is refuted: with two sources contributing one node each, the valid
completion order [1, 0] makes the aggregator emit the second source's nodes
first, which differs from the source-input-order concatenation. -/
theorem C4_counterexample :
    ([1, 0] : List Nat).Perm (List.range 2) ∧
    aggregate [some [nodeA], some [nodeB]] [1, 0] = [nodeB, nodeA] ∧
    (([some [nodeA], some [nodeB]] : List (Option (List ProxyNode))).filterMap
      id).flatten = [nodeA, nodeB] ∧
    aggregate [some [nodeA], some [nodeB]] [1, 0] ≠ [nodeA, nodeB] :=
  ⟨by decide, rfl, rfl, by decide⟩

/-- C4 amended: the aggregated collection is the concatenation of the
successfully extracted node lists in task-completion order, with
within-source document order preserved; for every valid completion order it
is a permutation of the source-input-order concatenation — in particular its
length always equals the sum of the extracted node counts — and it equals
the source-input-order concatenation when tasks complete in input order. -/
theorem C4_amended (sources : List (Option (List ProxyNode))) (order : List Nat)
    (h : order.Perm (List.range sources.length)) :
    (aggregate sources order).Perm ((sources.filterMap id).flatten) ∧
    (aggregate sources order).length = ((sources.filterMap id).map List.length).sum ∧
    aggregate sources (List.range sources.length) = (sources.filterMap id).flatten := by
  have hperm : (order.filterMap (fun i => (sources.get? i).bind id)).Perm
      (sources.filterMap id) :=
    (h.filterMap _).trans (List.Perm.of_eq (range_filterMap_get sources id))
  refine ⟨hperm.flatten, ?_, ?_⟩
  · rw [aggregate, hperm.flatten.length_eq, List.length_flatten]
  · rw [aggregate, range_filterMap_get]

/-- Witness for C4's amended statement: three sources, the middle one failing,
completing in order [2, 0, 1]: the merged collection is a permutation of the
source-order concatenation and has the full length 3. -/
theorem C4_witness :
    (aggregate [some [nodeA], none, some [nodeB, nodeA]] [2, 0, 1]).Perm
      [nodeA, nodeB, nodeA] ∧
    (aggregate [some [nodeA], none, some [nodeB, nodeA]] [2, 0, 1]).length = 3 := by
  have h := C4_amended [some [nodeA], none, some [nodeB, nodeA]] [2, 0, 1] (by decide)
  have hconc : (([some [nodeA], none, some [nodeB, nodeA]] :
      List (Option (List ProxyNode))).filterMap id).flatten = [nodeA, nodeB, nodeA] := rfl
  have hlen : ((([some [nodeA], none, some [nodeB, nodeA]] :
      List (Option (List ProxyNode))).filterMap id).map List.length).sum = 3 := rfl
  exact ⟨hconc ▸ h.1, hlen ▸ h.2.1⟩

/-- C5 is refuted: both nodes of the input survive, yet under the valid probe
completion order [1, 0] the filter's output lists them in reverse input
order. -/
theorem C5_counterexample :
    ([1, 0] : List Nat).Perm (List.range 2) ∧
    check_proxies_availability [nodeA, nodeB] wNet5 [1, 0] 5 = .ok [nodeB, nodeA] ∧
    ([nodeB, nodeA] : List ProxyNode) ≠ [nodeA, nodeB] :=
  ⟨by decide, check_two_swapped, by decide⟩

/-- C5 amended: the filter's output contains exactly the surviving nodes but
in probe-completion order: for every valid completion order the output is a
permutation of the stable in-input-order filter of the submitted nodes, and
it equals that stable filter exactly when futures complete in submission
order. -/
theorem C5_amended (proxies : List ProxyNode) (net : ProxyNode → ℚ → Nat → Option ℚ)
    (timeout : ℚ) (order : List Nat) (fut : List (ProxyNode × Int))
    (hf : buildFutures proxies = .ok fut)
    (ho : order.Perm (List.range fut.length)) :
    (∃ out, check_proxies_availability proxies net order timeout = .ok out ∧
      out.Perm (stable_filter net timeout fut)) ∧
    check_proxies_availability proxies net (List.range fut.length) timeout =
      .ok (stable_filter net timeout fut) := by
  constructor
  · refine ⟨_, check_eq_stable proxies net order timeout fut hf, ?_⟩
    exact (perm_completed fut order ho).filterMap _
  · rw [check_eq_stable proxies net (List.range fut.length) timeout fut hf,
      range_filterMap_get_eq]

/-- Witness for C5's amended statement at a concrete input: with completion
order [1, 0] the output [nodeB, nodeA] is a permutation of the stable
filter. -/
theorem C5_witness :
    check_proxies_availability [nodeA, nodeB] wNet5 [1, 0] 5 = .ok [nodeB, nodeA] ∧
    ([nodeB, nodeA] : List ProxyNode).Perm
      (stable_filter wNet5 5 [(nodeA, 80), (nodeB, 443)]) := by
  obtain ⟨out, h1, h2⟩ :=
    (C5_amended [nodeA, nodeB] wNet5 5 [1, 0] [(nodeA, 80), (nodeB, 443)] rfl
      (by decide)).1
  have h3 := h1.symm.trans check_two_swapped
  injection h3 with h4
  rw [← h4]
  exact ⟨h1, h2⟩

/-- C6 is refuted: a node whose `port` is truthy but not parseable as an
integer passes the submission guard, and `int(...)` then raises during task
submission, aborting the whole probing phase — and, run end to end, crashing
the process. -/
theorem C6_counterexample :
    guardNode nodeBadPort = true ∧
    check_proxies_availability [nodeBadPort] wNet5 [0] 5 = .error "ValueError" ∧
    runMain [some [nodeBadPort]] [0] true wNet5 [0] true none = .error "ValueError" :=
  ⟨rfl, rfl, rfl⟩

/-- C6 amended: a node missing `server`, or whose `port` is absent or falsy,
is excluded before any task is submitted, is never probed and never appears
in the output, and never makes the probing phase fail — the phase returns
normally whenever every guard-passing node's port parses as an integer; a
guard-passing node with an unparseable port, however, aborts the whole
phase. -/
theorem C6_missing_fields_excluded (proxies : List ProxyNode)
    (net : ProxyNode → ℚ → Nat → Option ℚ) (order : List Nat) (timeout : ℚ) :
    (∀ p ∈ proxies, guardNode p = false →
      p ∉ submittedNodes proxies ∧
      (∀ out, check_proxies_availability proxies net order timeout = .ok out →
        p ∉ out)) ∧
    ((∀ p ∈ submittedNodes proxies, ∃ n, parse_port p = .ok n) →
      ∃ out, check_proxies_availability proxies net order timeout = .ok out) := by
  constructor
  · intro p _ hg
    constructor
    · intro hmem
      rw [submittedNodes, List.mem_filter] at hmem
      rw [hmem.2] at hg
      cases hg
    · intro out hout hmem
      have hsub := check_ok_mem proxies net order timeout out hout p hmem
      rw [submittedNodes, List.mem_filter] at hsub
      rw [hsub.2] at hg
      cases hg
  · intro hall
    obtain ⟨fut, hfut⟩ := buildFuturesAux_ok_of (submittedNodes proxies) hall
    exact ⟨_, check_eq_stable proxies net order timeout fut hfut⟩

/-- Witness for C6's amended statement: a node without `server` is not
submitted, and the phase with the remaining well-formed node returns
normally. -/
theorem C6_witness :
    nodeNoServer ∉ submittedNodes [nodeNoServer, nodeA] ∧
    exceptOk (check_proxies_availability [nodeNoServer, nodeA] wNet5 [0, 1] 5) = true := by
  have h := C6_missing_fields_excluded [nodeNoServer, nodeA] wNet5 [0, 1] 5
  have hall : ∀ p ∈ submittedNodes [nodeNoServer, nodeA], ∃ n, parse_port p = .ok n := by
    intro p hp
    have hs : submittedNodes [nodeNoServer, nodeA] = [nodeA] := rfl
    rw [hs, List.mem_singleton] at hp
    subst hp
    exact ⟨80, rfl⟩
  obtain ⟨out, hout⟩ := h.2 hall
  refine ⟨(h.1 nodeNoServer (by decide) (by decide)).1, ?_⟩
  rw [hout]
  rfl

/-- C8 is refuted: a run that collected one node but whose write fails exits
normally (`Except.ok`, no error exit), leaving only an error log entry and
the file untouched — the loss is silent apart from the log line. -/
theorem C8_counterexample :
    runMain [some [nodeA]] [0] false wNet5 [0] true none =
      .ok ([Ev.error "Error saving YAML file", Ev.info "Aggregation completed",
        Ev.warn "No proxies found to check"], none) := rfl

/-- C8 amended: an output-write failure is caught, logged as an error, and
the run continues to a normal exit — it is not fatal; independently, the run
always attempts to produce an output file, and when no sources yield nodes
the file is written as an empty proxies list accompanied by a warning, not an
error exit. -/
theorem C8_write_failure_not_fatal :
    (∀ (sources : List (Option (List ProxyNode))) (fetchOrder : List Nat)
      (net : ProxyNode → ℚ → Nat → Option ℚ) (probeOrder : List Nat) (w2 : Bool),
      runMain sources fetchOrder false net probeOrder w2 none =
        .ok ([Ev.error "Error saving YAML file", Ev.info "Aggregation completed",
          Ev.warn "No proxies found to check"], none)) ∧
    (∀ (fetchOrder : List Nat) (net : ProxyNode → ℚ → Nat → Option ℚ)
      (probeOrder : List Nat) (w2 : Bool) (fs0 : Option (List ProxyNode)),
      runMain [] fetchOrder true net probeOrder w2 fs0 =
        .ok ([Ev.info "Aggregation completed", Ev.warn "No proxies found to check"],
          some [])) := by
  constructor
  · intro sources fetchOrder net probeOrder w2
    rfl
  · intro fetchOrder net probeOrder w2 fs0
    have hagg : aggregate [] fetchOrder = [] := by
      rw [aggregate]
      have hnil : fetchOrder.filterMap
          (fun i => ((([] : List (Option (List ProxyNode))).get? i).bind id)) = [] := by
        rw [List.filterMap_eq_nil_iff]
        intro a _
        rfl
      rw [hnil]
      rfl
    rw [runMain, hagg]
    rfl

/-- C9: every node in the filter's output is field-for-field equal to a node
of the input collection — the prober reads node fields but the pipeline never
rewrites them, so all fields, including the ones not used for
probing/filtering, survive unmodified. -/
theorem C9_fields_preserved (proxies : List ProxyNode)
    (net : ProxyNode → ℚ → Nat → Option ℚ) (order : List Nat) (timeout : ℚ)
    (out : List ProxyNode)
    (h : check_proxies_availability proxies net order timeout = .ok out) :
    ∀ p ∈ out, p ∈ proxies := by
  intro p hp
  have hsub := check_ok_mem proxies net order timeout out h p hp
  rw [submittedNodes, List.mem_filter] at hsub
  exact hsub.1

/-- Witness for C9 at a concrete input: both output nodes of a completed
check are nodes of the input collection, unchanged. -/
theorem C9_witness :
    nodeB ∈ ([nodeA, nodeB] : List ProxyNode) ∧
    nodeA ∈ ([nodeA, nodeB] : List ProxyNode) := by
  have h := C9_fields_preserved [nodeA, nodeB] wNet5 [1, 0] 5 [nodeB, nodeA]
    check_two_swapped
  exact ⟨h nodeB (by decide), h nodeA (by decide)⟩

end Collector
